import Mathlib

/-!
Shallow embedding of the I2C bus-transaction manager of CommandStation-EX
(source file `I2CManager.cpp`), together with theorems checking the
natural-language specification against it.

Machine integers are modelled as `Nat`; C pointers to byte buffers are
modelled as `Option (List Nat)` (the borrowed view of the pointed-to bytes,
`none` standing for the NULL pointer).  Parts of the program that live in
headers not present in the source tree (the status and operation constant
values, `queueRequest`, `loop`, `setTimeout`, the asynchronous write/read
entry points and the backend `_initialise`/`_setClock` calls) are modelled
from the specification and carry a doc comment saying so.
-/

set_option autoImplicit false

/-! ### Status and operation taxonomy -/

/-- Status code OK.  The source comments fix this value: the probe helper is
documented as returning `I2C_STATUS_OK (0)`. -/
def I2C_STATUS_OK : Nat := 0

/-- Modelled from the spec: status taxonomy value for a truncated transfer.
The header defining the concrete encodings is not in the source tree; the
values chosen here are distinct, which is all the specification fixes. -/
def I2C_STATUS_TRUNCATED : Nat := 1

/-- Modelled from the spec: device did not answer its address. -/
def I2C_STATUS_NEGATIVE_ACKNOWLEDGE : Nat := 2

/-- Modelled from the spec: device rejected a data byte. -/
def I2C_STATUS_TRANSMIT_ERROR : Nat := 3

/-- Modelled from the spec: other bus error status. -/
def I2C_STATUS_OTHER_TWI_ERROR : Nat := 4

/-- Modelled from the spec: timeout status. -/
def I2C_STATUS_TIMEOUT : Nat := 5

/-- Modelled from the spec: arbitration lost status. -/
def I2C_STATUS_ARBITRATION_LOST : Nat := 6

/-- Modelled from the spec: bus error status. -/
def I2C_STATUS_BUS_ERROR : Nat := 7

/-- Modelled from the spec: unexpected error status. -/
def I2C_STATUS_UNEXPECTED_ERROR : Nat := 8

/-- Modelled from the spec: the only non-terminal status value. -/
def I2C_STATUS_PENDING : Nat := 253

/-- Modelled from the spec: operation kind READ (read only). -/
def OPERATION_READ : Nat := 1

/-- Modelled from the spec: operation kind REQUEST (write followed by read). -/
def OPERATION_REQUEST : Nat := 2

/-- Modelled from the spec: operation kind SEND (write only). -/
def OPERATION_SEND : Nat := 3

/-- Modelled from the spec: the NO-RETRY modifier, encoded as a single bit
combined into the same byte-sized field as the operation kind, disjoint
from the kind bits. -/
def OPERATION_NORETRY : Nat := 128

/-! ### Request block -/

/-- The I2C request block: a caller-owned descriptor of one transaction.
`writeBuffer`/`readBuffer` are borrowed views of the pointed-to bytes
(`none` = NULL pointer); `nBytes` is the count of bytes actually read. -/
structure I2CRB where
  i2cAddress : Nat
  writeBuffer : Option (List Nat)
  readBuffer : Option (List Nat)
  writeLen : Nat
  readLen : Nat
  operation : Nat
  status : Nat
  nBytes : Nat
deriving DecidableEq, Repr

/-- A freshly declared (stack-allocated) request block, before any setter
runs on it.  The concrete contents are irrelevant: every claim about a
fresh block goes through a parameter setter first. -/
def initRB : I2CRB :=
  { i2cAddress := 0, writeBuffer := none, readBuffer := none,
    writeLen := 0, readLen := 0, operation := 0, status := 0, nBytes := 0 }

namespace I2CRB

/-- `I2CRB::setReadParams` from the source: records address, read buffer and
read length, zeroes the write length, sets operation READ and status OK. -/
def setReadParams (rb : I2CRB) (i2cAddress : Nat) (readBuffer : Option (List Nat))
    (readLen : Nat) : I2CRB :=
  { rb with
    i2cAddress := i2cAddress
    writeLen := 0
    readBuffer := readBuffer
    readLen := readLen
    operation := OPERATION_READ
    status := I2C_STATUS_OK }

/-- `I2CRB::setRequestParams` from the source: records address, both buffers
and both lengths, sets operation REQUEST and status OK. -/
def setRequestParams (rb : I2CRB) (i2cAddress : Nat) (readBuffer : Option (List Nat))
    (readLen : Nat) (writeBuffer : Option (List Nat)) (writeLen : Nat) : I2CRB :=
  { rb with
    i2cAddress := i2cAddress
    writeBuffer := writeBuffer
    writeLen := writeLen
    readBuffer := readBuffer
    readLen := readLen
    operation := OPERATION_REQUEST
    status := I2C_STATUS_OK }

/-- `I2CRB::setWriteParams` from the source: records address, write buffer
and write length, zeroes the read length, sets operation SEND and status OK. -/
def setWriteParams (rb : I2CRB) (i2cAddress : Nat) (writeBuffer : Option (List Nat))
    (writeLen : Nat) : I2CRB :=
  { rb with
    i2cAddress := i2cAddress
    writeBuffer := writeBuffer
    writeLen := writeLen
    readLen := 0
    operation := OPERATION_SEND
    status := I2C_STATUS_OK }

/-- `I2CRB::suppressRetries` from the source: sets or clears the NO-RETRY
bit in the operation field.  On the byte-sized field the C complement of
`OPERATION_NORETRY` (`~0x80` on `uint8_t`) is the mask `0x7F = 127`. -/
def suppressRetries (rb : I2CRB) (suppress : Bool) : I2CRB :=
  if suppress then { rb with operation := rb.operation ||| OPERATION_NORETRY }
  else { rb with operation := rb.operation &&& 127 }

end I2CRB

/-! ### Diagnostics and manager state -/

/-- One line emitted to the write-only diagnostic collaborator. -/
inductive DiagEvent where
  | shortSDA : DiagEvent
  | shortSCL : DiagEvent
  | deviceFound (addr : Nat) : DiagEvent
  | noDevices : DiagEvent
  | clockSet (speed : Nat) : DiagEvent
  | clockForced (speed : Nat) : DiagEvent
deriving DecidableEq, Repr

/-- The bus manager state: the one-time initialization flag, the negotiated
clock rate and its administrative lock, the per-attempt timeout, the clock
rate last pushed to the hardware backend, and the diagnostic lines emitted
so far. -/
structure I2CManagerClass where
  _beginCompleted : Bool := false
  _clockSpeed : Nat := 100000
  _clockSpeedFixed : Bool := false
  timeout : Nat := 100000
  busClock : Nat := 0
  diags : List DiagEvent := []
deriving Repr

namespace I2CManagerClass

/-- Append one diagnostic line. -/
def addDiag (m : I2CManagerClass) (d : DiagEvent) : I2CManagerClass :=
  { m with diags := m.diags ++ [d] }

/-- Modelled from the spec: the backend `setClockRate` call; it only pushes
the given rate to the hardware, not touching the negotiated rate. -/
def _setClock (m : I2CManagerClass) (speed : Nat) : I2CManagerClass :=
  { m with busClock := speed }

/-- `I2CManagerClass::setClock` from the source: lowers the negotiated clock
rate to `speed` only when `speed` is strictly smaller and the rate is not
administratively fixed, then pushes the negotiated rate to the backend. -/
def setClock (m : I2CManagerClass) (speed : Nat) : I2CManagerClass :=
  let m :=
    if speed < m._clockSpeed ∧ m._clockSpeedFixed = false then
      (({ m with _clockSpeed := speed } : I2CManagerClass).addDiag (.clockSet speed))
    else m
  m._setClock m._clockSpeed

/-- `I2CManagerClass::forceClock` from the source: unconditionally sets the
negotiated rate, locks it, and pushes it to the backend. -/
def forceClock (m : I2CManagerClass) (speed : Nat) : I2CManagerClass :=
  let m := { m with _clockSpeed := speed, _clockSpeedFixed := true }
  (m._setClock m._clockSpeed).addDiag (.clockForced speed)

/-- Modelled from the spec: `setTimeout` stores the per-attempt timeout. -/
def setTimeout (m : I2CManagerClass) (value : Nat) : I2CManagerClass :=
  { m with timeout := value }

/-- `I2CManagerClass::getErrorMessage` from the source: a pure lookup from
a status code to a fixed human-readable message, with a default case. -/
def getErrorMessage (status : Nat) : String :=
  if status = I2C_STATUS_OK then "OK"
  else if status = I2C_STATUS_TRUNCATED then "Transmission truncated"
  else if status = I2C_STATUS_NEGATIVE_ACKNOWLEDGE then "No response from device (address NAK)"
  else if status = I2C_STATUS_TRANSMIT_ERROR then "Transmit error (data NAK)"
  else if status = I2C_STATUS_OTHER_TWI_ERROR then "Other Wire/TWI error"
  else if status = I2C_STATUS_TIMEOUT then "Timeout"
  else if status = I2C_STATUS_ARBITRATION_LOST then "Arbitration lost"
  else if status = I2C_STATUS_BUS_ERROR then "I2C bus error"
  else if status = I2C_STATUS_UNEXPECTED_ERROR then "Unexpected error"
  else if status = I2C_STATUS_PENDING then "Request pending"
  else "Error code not recognised"

end I2CManagerClass

/-! ### Initialization world (for `begin`) -/

/-- One probe of a bus address during the startup scan, recorded with the
manager settings in force at the moment of the probe. -/
structure ProbeEvent where
  addr : Nat
  timeoutAtProbe : Nat
  clockAtProbe : Nat
  noRetry : Bool
deriving DecidableEq, Repr

/-- The world `begin` acts on: the manager, the instantaneous logic level of
the two bus lines, an oracle saying which addresses host a responding
device, a count of backend bring-up calls, and the trace of probes. -/
structure BeginWorld where
  mgr : I2CManagerClass
  sdaLevel : Bool
  sclLevel : Bool
  devices : Nat → Bool
  initCount : Nat
  probes : List ProbeEvent

namespace BeginWorld

/-- Modelled from the spec: the backend bring-up `initialize()` call,
observed here only through its invocation count. -/
def _initialise (w : BeginWorld) : BeginWorld :=
  { w with initCount := w.initCount + 1 }

/-- Append a diagnostic line through the manager. -/
def addDiag (w : BeginWorld) (d : DiagEvent) : BeginWorld :=
  { w with mgr := w.mgr.addDiag d }

/-- Modelled from the spec: `exists(addr)` probes one address with a
zero-length write and retries suppressed (the source `checkAddress` path)
and reports whether a device answered.  The probe is recorded together
with the timeout and backend clock rate in force when it runs. -/
def existsAddr (w : BeginWorld) (addr : Nat) : BeginWorld × Bool :=
  let w := { w with
    probes := w.probes ++
      [{ addr := addr, timeoutAtProbe := w.mgr.timeout,
         clockAtProbe := w.mgr.busClock, noRetry := true }] }
  (w, w.devices addr)

/-- One iteration of the scan loop body of `begin`: probe `addr`, report a
found device, and update the `found` flag. -/
def scanStep (s : BeginWorld × Bool) (addr : Nat) : BeginWorld × Bool :=
  let p := s.1.existsAddr addr
  if p.2 then (p.1.addDiag (.deviceFound addr), true) else (p.1, s.2)

/-- `I2CManagerClass::begin` from the source: on the first call only, sets
the completion flag, brings up the backend, warns about stuck bus lines,
then scans addresses 1 to 126 at backend clock 100000 with a 1000 timeout,
restoring the backend clock to the negotiated rate and the original
timeout afterwards. -/
def begin (w : BeginWorld) : BeginWorld :=
  if w.mgr._beginCompleted then w
  else
    let w := { w with mgr := { w.mgr with _beginCompleted := true } }
    let w := w._initialise
    let w := if w.sdaLevel = false then w.addDiag .shortSDA else w
    let w := if w.sclLevel = false then w.addDiag .shortSCL else w
    let w := { w with mgr := w.mgr._setClock 100000 }
    let originalTimeout := w.mgr.timeout
    let w := { w with mgr := w.mgr.setTimeout 1000 }
    let r := (List.range' 1 126).foldl scanStep (w, false)
    let w := if r.2 = false then r.1.addDiag .noDevices else r.1
    let w := { w with mgr := w.mgr._setClock w.mgr._clockSpeed }
    let w := { w with mgr := w.mgr.setTimeout originalTimeout }
    w

end BeginWorld

/-! ### Scheduler world (for `queueRequest`, `loop`, `wait`, `isBusy` and
the blocking convenience layer) -/

/-- The world the scheduler acts on.  `rb` is the caller block currently
known to the manager (blocks are passed by reference; the blocking helpers
and `checkAddress` each use one transient block).  The backend and queue
capacity are abstracted, as the spec describes them: `queueFull` is the
capacity condition at submission, `rejectStatus` the error terminal value
posted on synchronous rejection, `completionStatus` the terminal status
the backend resolution will produce for the active request, and
`stepsToComplete` the number of scheduler steps before that resolution.
`loopCount` counts scheduler advancement steps; `submissions` is the trace
of blocks as handed to `queueRequest`. -/
structure SchedWorld where
  rb : I2CRB
  queueFull : Bool
  rejectStatus : Nat
  completionStatus : Nat
  stepsToComplete : Nat
  loopCount : Nat
  submissions : List I2CRB
deriving DecidableEq, Repr

namespace SchedWorld

/-- Valid operation kinds are READ, REQUEST and SEND, after masking off the
NO-RETRY modifier bit. -/
def validOperation (blk : I2CRB) : Bool :=
  let k := blk.operation &&& 127
  k == OPERATION_READ || k == OPERATION_REQUEST || k == OPERATION_SEND

/-- Modelled from the spec: `queueRequest` records the submission and never
blocks; if the queue is full or the operation kind invalid it posts the
rejection error terminal value on the block, otherwise the block becomes
PENDING synchronously. -/
def queueRequest (w : SchedWorld) (blk : I2CRB) : SchedWorld :=
  let w := { w with submissions := w.submissions ++ [blk] }
  if w.queueFull || !validOperation blk then
    { w with rb := { blk with status := w.rejectStatus } }
  else
    { w with rb := { blk with status := I2C_STATUS_PENDING } }

/-- Modelled from the spec: `loop`, the single scheduler advancement step.
If the block is PENDING it either makes one step of backend progress or,
when the backend resolution arrives, posts the terminal status; otherwise
the step finds nothing to do on this block. -/
def loop (w : SchedWorld) : SchedWorld :=
  let w := { w with loopCount := w.loopCount + 1 }
  if w.rb.status = I2C_STATUS_PENDING then
    if w.stepsToComplete = 0 then
      { w with rb := { w.rb with status := w.completionStatus } }
    else
      { w with stepsToComplete := w.stepsToComplete - 1 }
  else w

/-- The body of `I2CRB::wait` from the source: keep invoking the scheduler
advancement step while the block is PENDING.  The source loop is unbounded;
here it unrolls on a fuel argument, and `wait` supplies fuel sufficient
for the modelled backend resolution. -/
def waitAux : Nat → SchedWorld → SchedWorld
  | 0, w => w
  | n + 1, w =>
    if w.rb.status = I2C_STATUS_PENDING then waitAux n (loop w) else w

/-- `I2CRB::wait` from the source: loop the scheduler until the block
leaves PENDING, then return the status. -/
def wait (w : SchedWorld) : SchedWorld × Nat :=
  let w := waitAux (w.stepsToComplete + 1) w
  (w, w.rb.status)

/-- `I2CRB::isBusy` from the source: if the block is PENDING, run one
scheduler advancement step and return true; otherwise return false. -/
def isBusy (w : SchedWorld) : SchedWorld × Bool :=
  if w.rb.status = I2C_STATUS_PENDING then (loop w, true) else (w, false)

/-- `I2CManagerClass::checkAddress` from the source: prepare a transient
block as a zero-length write with retries suppressed, submit it, and
return the result of waiting on it. -/
def checkAddress (w : SchedWorld) (address : Nat) : SchedWorld × Nat :=
  let rb := initRB.setWriteParams address none 0
  let rb := rb.suppressRetries true
  let w := w.queueRequest rb
  w.wait

/-- Modelled from the spec: the asynchronous four-argument `write` (defined
in a header not in the source tree): prepare the block with
`setWriteParams`, submit it, and return OK on acceptance or the rejection
error code on synchronous rejection. -/
def writeAsync (w : SchedWorld) (i2cAddress : Nat) (writeBuffer : Option (List Nat))
    (writeLen : Nat) : SchedWorld × Nat :=
  let blk := initRB.setWriteParams i2cAddress writeBuffer writeLen
  let w := w.queueRequest blk
  (w, if w.rb.status = I2C_STATUS_PENDING then I2C_STATUS_OK else w.rb.status)

/-- Modelled from the spec: the asynchronous `write_P` (write from
immutable storage), identical to the asynchronous write at this level of
abstraction: prepare, submit, report acceptance or rejection. -/
def write_PAsync (w : SchedWorld) (i2cAddress : Nat) (data : Option (List Nat))
    (dataLen : Nat) : SchedWorld × Nat :=
  let blk := initRB.setWriteParams i2cAddress data dataLen
  let w := w.queueRequest blk
  (w, if w.rb.status = I2C_STATUS_PENDING then I2C_STATUS_OK else w.rb.status)

/-- Modelled from the spec: the asynchronous six-argument `read`: prepare
the block with `setRequestParams`, submit it, and report acceptance or
rejection. -/
def readAsync (w : SchedWorld) (i2cAddress : Nat) (readBuffer : Option (List Nat))
    (readLen : Nat) (writeBuffer : Option (List Nat)) (writeLen : Nat) :
    SchedWorld × Nat :=
  let blk := initRB.setRequestParams i2cAddress readBuffer readLen writeBuffer writeLen
  let w := w.queueRequest blk
  (w, if w.rb.status = I2C_STATUS_PENDING then I2C_STATUS_OK else w.rb.status)

/-- `I2CManagerClass::finishRB` from the source: if the synchronous status
is OK and the block pointer is non-null, wait on the block and return its
terminal status; otherwise return the synchronous status unchanged. -/
def finishRB (w : SchedWorld) (rbPresent : Bool) (status : Nat) : SchedWorld × Nat :=
  if status = I2C_STATUS_OK ∧ rbPresent = true then w.wait else (w, status)

/-- The submit-then-finish pattern every blocking convenience call reduces
to: submit `blk`, compute the synchronous acceptance status, and finish the
transient block.  Each blocking call is definitionally this pattern applied
to its freshly prepared block. -/
def submitBlocking (w : SchedWorld) (blk : I2CRB) : SchedWorld × Nat :=
  let w := w.queueRequest blk
  let status := if w.rb.status = I2C_STATUS_PENDING then I2C_STATUS_OK else w.rb.status
  w.finishRB true status

/-- The blocking `write` from the source: submit through the asynchronous
write, then finish the transient block. -/
def write (w : SchedWorld) (i2cAddress : Nat) (writeBuffer : Option (List Nat))
    (writeLen : Nat) : SchedWorld × Nat :=
  let p := w.writeAsync i2cAddress writeBuffer writeLen
  p.1.finishRB true p.2

/-- The blocking `write_P` from the source: submit through the asynchronous
`write_P`, then finish the transient block. -/
def write_P (w : SchedWorld) (i2cAddress : Nat) (data : Option (List Nat))
    (dataLen : Nat) : SchedWorld × Nat :=
  let p := w.write_PAsync i2cAddress data dataLen
  p.1.finishRB true p.2

/-- The blocking five-argument `read` from the source: submit through the
asynchronous read, then finish the transient block. -/
def read (w : SchedWorld) (i2cAddress : Nat) (readBuffer : Option (List Nat))
    (readLen : Nat) (writeBuffer : Option (List Nat)) (writeLen : Nat) :
    SchedWorld × Nat :=
  let p := w.readAsync i2cAddress readBuffer readLen writeBuffer writeLen
  p.1.finishRB true p.2

/-- The variadic blocking `write` overload from the source: marshal the
inline byte list into a buffer and call the array-based blocking write. -/
def writeVar (w : SchedWorld) (address : Nat) (bytes : List Nat) : SchedWorld × Nat :=
  w.write address (some bytes) bytes.length

/-- The variadic blocking `read` overload from the source: marshal the
inline command bytes into a buffer and call the array-based blocking read. -/
def readVar (w : SchedWorld) (address : Nat) (readBuffer : Option (List Nat))
    (readSize : Nat) (bytes : List Nat) : SchedWorld × Nat :=
  w.read address readBuffer readSize (some bytes) bytes.length

end SchedWorld

/-! ### Concrete worlds used to instantiate the theorems -/

/-- A fresh initialization world: bus lines high, no devices answering,
nothing probed yet, manager in its power-on state. -/
def beginWitnessWorld : BeginWorld :=
  { mgr := {}, sdaLevel := true, sclLevel := true,
    devices := fun _ => false, initCount := 0, probes := [] }

/-- A scheduler world whose block is idle (terminal status OK). -/
def idleWorld : SchedWorld :=
  { rb := { initRB with status := I2C_STATUS_OK }, queueFull := false,
    rejectStatus := I2C_STATUS_UNEXPECTED_ERROR,
    completionStatus := I2C_STATUS_OK, stepsToComplete := 0,
    loopCount := 0, submissions := [] }

/-- A scheduler world whose block is PENDING and whose backend resolution
arrives on the very next scheduler step, with terminal status OK. -/
def aboutToCompleteWorld : SchedWorld :=
  { rb := { initRB with status := I2C_STATUS_PENDING }, queueFull := false,
    rejectStatus := I2C_STATUS_UNEXPECTED_ERROR,
    completionStatus := I2C_STATUS_OK, stepsToComplete := 0,
    loopCount := 0, submissions := [] }

/-- A scheduler world with a free queue and a backend that will resolve the
next submitted request as NEGATIVE_ACKNOWLEDGE after three steps. -/
def nakWorld : SchedWorld :=
  { rb := initRB, queueFull := false,
    rejectStatus := I2C_STATUS_UNEXPECTED_ERROR,
    completionStatus := I2C_STATUS_NEGATIVE_ACKNOWLEDGE, stepsToComplete := 3,
    loopCount := 0, submissions := [] }

/-- The scheduler world `nakWorld` with its queue at capacity. -/
def fullQueueWorld : SchedWorld :=
  { nakWorld with queueFull := true }

/-- The ten defined status codes, in the order of the source dispatch. -/
def statusCodes : List Nat :=
  [I2C_STATUS_OK, I2C_STATUS_TRUNCATED, I2C_STATUS_NEGATIVE_ACKNOWLEDGE,
   I2C_STATUS_TRANSMIT_ERROR, I2C_STATUS_OTHER_TWI_ERROR, I2C_STATUS_TIMEOUT,
   I2C_STATUS_ARBITRATION_LOST, I2C_STATUS_BUS_ERROR,
   I2C_STATUS_UNEXPECTED_ERROR, I2C_STATUS_PENDING]

/-! ## Theorems -/

/-! ### Clock negotiation (C1) -/

theorem setClock_clockSpeed (m : I2CManagerClass) (r : Nat) :
    (m.setClock r)._clockSpeed
      = if r < m._clockSpeed ∧ m._clockSpeedFixed = false then r else m._clockSpeed := by
  simp only [I2CManagerClass.setClock, I2CManagerClass._setClock, I2CManagerClass.addDiag]
  split <;> rfl

theorem setClock_clockSpeedFixed (m : I2CManagerClass) (r : Nat) :
    (m.setClock r)._clockSpeedFixed = m._clockSpeedFixed := by
  simp only [I2CManagerClass.setClock, I2CManagerClass._setClock, I2CManagerClass.addDiag]
  split <;> rfl

theorem foldl_setClock_of_fixed (rates : List Nat) :
    ∀ m : I2CManagerClass, m._clockSpeedFixed = true →
      (rates.foldl I2CManagerClass.setClock m)._clockSpeed = m._clockSpeed
      ∧ (rates.foldl I2CManagerClass.setClock m)._clockSpeedFixed = true := by
  induction rates with
  | nil => intro m h; exact ⟨rfl, h⟩
  | cons r rates ih =>
    intro m h
    have hfix : (m.setClock r)._clockSpeedFixed = true := by
      rw [setClock_clockSpeedFixed]; exact h
    have hspeed : (m.setClock r)._clockSpeed = m._clockSpeed := by
      rw [setClock_clockSpeed, if_neg]; simp [h]
    obtain ⟨h1, h2⟩ := ih (m.setClock r) hfix
    exact ⟨by rw [List.foldl_cons, h1, hspeed], by rw [List.foldl_cons, h2]⟩

/-- C1: the negotiated clock rate is monotonically non-increasing under
`setClock` and lockable by `forceClock`: `setClock r` lowers the stored rate
to `r` exactly when `r` is strictly smaller and the rate is not fixed, and
never raises it; `forceClock r` sets the rate to `r` and marks it fixed,
after which any sequence of `setClock` calls leaves the rate at `r`; and
`setClock 5000` then `setClock 9000` from the power-on state leaves 5000,
while a `setClock 100` after `forceClock 9000` leaves 9000. -/
theorem clock_negotiation_law :
    (∀ (m : I2CManagerClass) (r : Nat),
      (m.setClock r)._clockSpeed
          = (if r < m._clockSpeed ∧ m._clockSpeedFixed = false then r else m._clockSpeed)
        ∧ (m.setClock r)._clockSpeed ≤ m._clockSpeed
        ∧ (m.forceClock r)._clockSpeed = r
        ∧ (m.forceClock r)._clockSpeedFixed = true
        ∧ (∀ rates : List Nat,
            (rates.foldl I2CManagerClass.setClock (m.forceClock r))._clockSpeed = r))
    ∧ ((({} : I2CManagerClass).setClock 5000).setClock 9000)._clockSpeed = 5000
    ∧ ((((({} : I2CManagerClass).setClock 5000).setClock 9000).forceClock
          9000).setClock 100)._clockSpeed = 9000 := by
  refine ⟨fun m r => ⟨setClock_clockSpeed m r, ?_, rfl, rfl, fun rates => ?_⟩, rfl, rfl⟩
  · rw [setClock_clockSpeed]
    split
    · next hlt => exact Nat.le_of_lt hlt.1
    · exact Nat.le_refl _
  · exact (foldl_setClock_of_fixed rates (m.forceClock r) rfl).1

/-! ### Parameter setters (C5) -/

/-- C5: each parameter setter resets the status to OK, installs the
corresponding operation kind, records the given address, buffer views and
lengths (`setWriteParams` zeroing the read length, `setReadParams` zeroing
the write length), regardless of the prior contents of the block. -/
theorem setParams_reset_contract :
    ∀ (rb : I2CRB) (a wl rl : Nat) (wb rbuf : Option (List Nat)),
      ((rb.setWriteParams a wb wl).status = I2C_STATUS_OK
        ∧ (rb.setWriteParams a wb wl).operation = OPERATION_SEND
        ∧ (rb.setWriteParams a wb wl).i2cAddress = a
        ∧ (rb.setWriteParams a wb wl).writeBuffer = wb
        ∧ (rb.setWriteParams a wb wl).writeLen = wl
        ∧ (rb.setWriteParams a wb wl).readLen = 0)
      ∧ ((rb.setReadParams a rbuf rl).status = I2C_STATUS_OK
        ∧ (rb.setReadParams a rbuf rl).operation = OPERATION_READ
        ∧ (rb.setReadParams a rbuf rl).i2cAddress = a
        ∧ (rb.setReadParams a rbuf rl).readBuffer = rbuf
        ∧ (rb.setReadParams a rbuf rl).readLen = rl
        ∧ (rb.setReadParams a rbuf rl).writeLen = 0)
      ∧ ((rb.setRequestParams a rbuf rl wb wl).status = I2C_STATUS_OK
        ∧ (rb.setRequestParams a rbuf rl wb wl).operation = OPERATION_REQUEST
        ∧ (rb.setRequestParams a rbuf rl wb wl).i2cAddress = a
        ∧ (rb.setRequestParams a rbuf rl wb wl).readBuffer = rbuf
        ∧ (rb.setRequestParams a rbuf rl wb wl).readLen = rl
        ∧ (rb.setRequestParams a rbuf rl wb wl).writeBuffer = wb
        ∧ (rb.setRequestParams a rbuf rl wb wl).writeLen = wl) :=
  fun _ _ _ _ _ _ =>
    ⟨⟨rfl, rfl, rfl, rfl, rfl, rfl⟩, ⟨rfl, rfl, rfl, rfl, rfl, rfl⟩,
      ⟨rfl, rfl, rfl, rfl, rfl, rfl, rfl⟩⟩

/-! ### Retry suppression (C6, C10) -/

set_option maxRecDepth 8192 in
theorem byte_or_and_facts :
    ∀ op : Nat, op < 256 → op ||| 128 = op % 128 + 128 ∧ op &&& 127 = op % 128 := by
  decide

/-- C6 counterexample: on a block whose NO-RETRY bit is already set (the
block `checkAddress` itself builds), `suppressRetries true` followed by
`suppressRetries false` does not restore the original operation field. -/
theorem suppressRetries_roundtrip_cex :
    ¬(((((initRB.setWriteParams 72 none 0).suppressRetries true).suppressRetries
            true).suppressRetries false).operation
        = ((initRB.setWriteParams 72 none 0).suppressRetries true).operation) := by
  decide

/-- C6 amended: for a byte-valued operation field, `suppressRetries b` sets
the NO-RETRY bit exactly when `b` is true and clears it when `b` is false,
leaves the operation kind (the low bits) and every other field of the block
unchanged, and `suppressRetries true` followed by `suppressRetries false`
leaves the operation field equal to the original with the NO-RETRY bit
cleared (which is the original exactly when the bit was initially clear). -/
theorem suppressRetries_frame (rb : I2CRB) (b : Bool) (h : rb.operation < 256) :
    (rb.suppressRetries b).operation
        = rb.operation % 128 + (if b then 128 else 0)
    ∧ (rb.suppressRetries b).operation % 128 = rb.operation % 128
    ∧ (rb.suppressRetries b).i2cAddress = rb.i2cAddress
    ∧ (rb.suppressRetries b).writeBuffer = rb.writeBuffer
    ∧ (rb.suppressRetries b).readBuffer = rb.readBuffer
    ∧ (rb.suppressRetries b).writeLen = rb.writeLen
    ∧ (rb.suppressRetries b).readLen = rb.readLen
    ∧ (rb.suppressRetries b).status = rb.status
    ∧ (rb.suppressRetries b).nBytes = rb.nBytes
    ∧ ((rb.suppressRetries true).suppressRetries false).operation
        = rb.operation % 128 := by
  obtain ⟨hor, hand⟩ := byte_or_and_facts rb.operation h
  have htrue : ∀ x : I2CRB, (x.suppressRetries true).operation = x.operation ||| 128 :=
    fun _ => rfl
  have hfalse : ∀ x : I2CRB, (x.suppressRetries false).operation = x.operation &&& 127 :=
    fun _ => rfl
  have hround : ((rb.suppressRetries true).suppressRetries false).operation
      = rb.operation % 128 := by
    rw [hfalse, htrue]
    have h2 : rb.operation ||| 128 < 256 := by rw [hor]; omega
    rw [(byte_or_and_facts _ h2).2, hor]
    omega
  cases b with
  | true =>
    refine ⟨?_, ?_, rfl, rfl, rfl, rfl, rfl, rfl, rfl, hround⟩
    · rw [htrue, hor]; simp
    · rw [htrue, hor]; omega
  | false =>
    refine ⟨?_, ?_, rfl, rfl, rfl, rfl, rfl, rfl, rfl, hround⟩
    · rw [hfalse, hand]; simp
    · rw [hfalse, hand]; omega

/-- C6 amended witness: the amended theorem evaluated on a concrete SEND
block with the NO-RETRY bit initially clear. -/
theorem suppressRetries_frame_witness :
    (initRB.setWriteParams 5 none 2).operation < 256
    ∧ ((initRB.setWriteParams 5 none 2).suppressRetries true).operation
        = (initRB.setWriteParams 5 none 2).operation % 128 + 128 :=
  ⟨by decide, (suppressRetries_frame (initRB.setWriteParams 5 none 2) true (by decide)).1⟩

/-- C10: every parameter setter discards the NO-RETRY modifier: after any
setter the operation field equals exactly the bare operation kind, whose
NO-RETRY bit is clear, even when `suppressRetries true` ran before the
setter; re-applying `suppressRetries true` after the setter (the order
`checkAddress` uses) sets the bit on top of the bare kind. -/
theorem setters_clear_noretry_modifier :
    ∀ (rb : I2CRB) (a wl rl : Nat) (wb rbuf : Option (List Nat)),
      ((rb.suppressRetries true).setWriteParams a wb wl).operation = OPERATION_SEND
      ∧ ((rb.suppressRetries true).setReadParams a rbuf rl).operation = OPERATION_READ
      ∧ ((rb.suppressRetries true).setRequestParams a rbuf rl wb wl).operation
          = OPERATION_REQUEST
      ∧ OPERATION_SEND &&& OPERATION_NORETRY = 0
      ∧ OPERATION_READ &&& OPERATION_NORETRY = 0
      ∧ OPERATION_REQUEST &&& OPERATION_NORETRY = 0
      ∧ ((rb.setWriteParams a wb wl).suppressRetries true).operation
          = OPERATION_SEND ||| OPERATION_NORETRY :=
  fun _ _ _ _ _ _ => ⟨rfl, rfl, rfl, by decide, by decide, by decide, rfl⟩

/-! ### Error messages (C9) -/

/-- C9: `getErrorMessage` is a total pure lookup: the ten defined status
codes are distinct and map to ten pairwise distinct messages, and every
other input maps to the default message. -/
theorem getErrorMessage_total_lookup :
    statusCodes.Nodup
    ∧ (statusCodes.map I2CManagerClass.getErrorMessage).Nodup
    ∧ (∀ s : Nat, s ∉ statusCodes →
        I2CManagerClass.getErrorMessage s = "Error code not recognised") := by
  refine ⟨by decide, by decide, ?_⟩
  intro s hs
  simp only [statusCodes, List.mem_cons, List.not_mem_nil, or_false, not_or] at hs
  obtain ⟨h1, h2, h3, h4, h5, h6, h7, h8, h9, h10⟩ := hs
  simp only [I2CManagerClass.getErrorMessage, if_neg h1, if_neg h2, if_neg h3, if_neg h4,
    if_neg h5, if_neg h6, if_neg h7, if_neg h8, if_neg h9, if_neg h10]

/-- C9 witness: the default case evaluated at the unassigned code 42. -/
theorem getErrorMessage_total_lookup_witness :
    (42 : Nat) ∉ statusCodes
    ∧ I2CManagerClass.getErrorMessage 42 = "Error code not recognised" :=
  ⟨by decide, getErrorMessage_total_lookup.2.2 42 (by decide)⟩

/-! ### Initialization (C3, C4) -/

namespace BeginWorld

@[simp] theorem addDiag_mgr_timeout (w : BeginWorld) (d : DiagEvent) :
    (w.addDiag d).mgr.timeout = w.mgr.timeout := rfl

@[simp] theorem addDiag_mgr_clockSpeed (w : BeginWorld) (d : DiagEvent) :
    (w.addDiag d).mgr._clockSpeed = w.mgr._clockSpeed := rfl

@[simp] theorem addDiag_mgr_clockSpeedFixed (w : BeginWorld) (d : DiagEvent) :
    (w.addDiag d).mgr._clockSpeedFixed = w.mgr._clockSpeedFixed := rfl

@[simp] theorem addDiag_mgr_beginCompleted (w : BeginWorld) (d : DiagEvent) :
    (w.addDiag d).mgr._beginCompleted = w.mgr._beginCompleted := rfl

@[simp] theorem addDiag_mgr_busClock (w : BeginWorld) (d : DiagEvent) :
    (w.addDiag d).mgr.busClock = w.mgr.busClock := rfl

@[simp] theorem addDiag_probes (w : BeginWorld) (d : DiagEvent) :
    (w.addDiag d).probes = w.probes := rfl

@[simp] theorem addDiag_initCount (w : BeginWorld) (d : DiagEvent) :
    (w.addDiag d).initCount = w.initCount := rfl

@[simp] theorem ite_addDiag_mgr_timeout (c : Prop) [Decidable c] (w : BeginWorld)
    (d : DiagEvent) : (if c then w.addDiag d else w).mgr.timeout = w.mgr.timeout := by
  split <;> rfl

@[simp] theorem ite_addDiag_mgr_clockSpeed (c : Prop) [Decidable c] (w : BeginWorld)
    (d : DiagEvent) : (if c then w.addDiag d else w).mgr._clockSpeed = w.mgr._clockSpeed := by
  split <;> rfl

@[simp] theorem ite_addDiag_mgr_clockSpeedFixed (c : Prop) [Decidable c] (w : BeginWorld)
    (d : DiagEvent) :
    (if c then w.addDiag d else w).mgr._clockSpeedFixed = w.mgr._clockSpeedFixed := by
  split <;> rfl

@[simp] theorem ite_addDiag_mgr_beginCompleted (c : Prop) [Decidable c] (w : BeginWorld)
    (d : DiagEvent) :
    (if c then w.addDiag d else w).mgr._beginCompleted = w.mgr._beginCompleted := by
  split <;> rfl

@[simp] theorem ite_addDiag_mgr_busClock (c : Prop) [Decidable c] (w : BeginWorld)
    (d : DiagEvent) : (if c then w.addDiag d else w).mgr.busClock = w.mgr.busClock := by
  split <;> rfl

@[simp] theorem ite_addDiag_probes (c : Prop) [Decidable c] (w : BeginWorld)
    (d : DiagEvent) : (if c then w.addDiag d else w).probes = w.probes := by
  split <;> rfl

@[simp] theorem ite_addDiag_initCount (c : Prop) [Decidable c] (w : BeginWorld)
    (d : DiagEvent) : (if c then w.addDiag d else w).initCount = w.initCount := by
  split <;> rfl

theorem scanFold (L : List Nat) :
    ∀ (w : BeginWorld) (found : Bool),
      ((L.foldl scanStep (w, found)).1.probes
          = w.probes ++ L.map (fun a =>
              { addr := a, timeoutAtProbe := w.mgr.timeout,
                clockAtProbe := w.mgr.busClock, noRetry := true }))
      ∧ (L.foldl scanStep (w, found)).1.mgr.timeout = w.mgr.timeout
      ∧ (L.foldl scanStep (w, found)).1.mgr.busClock = w.mgr.busClock
      ∧ (L.foldl scanStep (w, found)).1.mgr._clockSpeed = w.mgr._clockSpeed
      ∧ (L.foldl scanStep (w, found)).1.mgr._clockSpeedFixed = w.mgr._clockSpeedFixed
      ∧ (L.foldl scanStep (w, found)).1.mgr._beginCompleted = w.mgr._beginCompleted
      ∧ (L.foldl scanStep (w, found)).1.initCount = w.initCount := by
  induction L with
  | nil => intro w found; simp
  | cons a L ih =>
    intro w found
    rw [List.foldl_cons]
    have hstep : ∀ f : Bool, ∃ (w' : BeginWorld) (f' : Bool),
        scanStep (w, f) a = (w', f')
        ∧ w'.probes = w.probes ++
            [{ addr := a, timeoutAtProbe := w.mgr.timeout,
               clockAtProbe := w.mgr.busClock, noRetry := true }]
        ∧ w'.mgr.timeout = w.mgr.timeout
        ∧ w'.mgr.busClock = w.mgr.busClock
        ∧ w'.mgr._clockSpeed = w.mgr._clockSpeed
        ∧ w'.mgr._clockSpeedFixed = w.mgr._clockSpeedFixed
        ∧ w'.mgr._beginCompleted = w.mgr._beginCompleted
        ∧ w'.initCount = w.initCount := by
      intro f
      by_cases hd : w.devices a = true
      · refine ⟨({ w with probes := w.probes ++
            [{ addr := a, timeoutAtProbe := w.mgr.timeout,
               clockAtProbe := w.mgr.busClock, noRetry := true }] } :
              BeginWorld).addDiag (.deviceFound a), true,
          ?_, rfl, rfl, rfl, rfl, rfl, rfl, rfl⟩
        simp [scanStep, existsAddr, hd]
      · refine ⟨({ w with probes := w.probes ++
            [{ addr := a, timeoutAtProbe := w.mgr.timeout,
               clockAtProbe := w.mgr.busClock, noRetry := true }] } : BeginWorld), f,
          ?_, rfl, rfl, rfl, rfl, rfl, rfl, rfl⟩
        simp [scanStep, existsAddr, hd]
    obtain ⟨w', f', hs, hp, ht, hb, hc, hf, hbc, hi⟩ := hstep found
    rw [hs]
    obtain ⟨p1, p2, p3, p4, p5, p6, p7⟩ := ih w' f'
    refine ⟨?_, by rw [p2, ht], by rw [p3, hb], by rw [p4, hc], by rw [p5, hf],
      by rw [p6, hbc], by rw [p7, hi]⟩
    rw [p1, hp, ht, hb, List.map_cons, List.append_assoc, List.singleton_append]

end BeginWorld

@[simp] theorem scanFold_probes (L : List Nat) (w : BeginWorld) (f : Bool) :
    (L.foldl BeginWorld.scanStep (w, f)).1.probes
      = w.probes ++ L.map (fun a =>
          { addr := a, timeoutAtProbe := w.mgr.timeout,
            clockAtProbe := w.mgr.busClock, noRetry := true }) :=
  (BeginWorld.scanFold L w f).1

@[simp] theorem scanFold_timeout (L : List Nat) (w : BeginWorld) (f : Bool) :
    (L.foldl BeginWorld.scanStep (w, f)).1.mgr.timeout = w.mgr.timeout :=
  (BeginWorld.scanFold L w f).2.1

@[simp] theorem scanFold_busClock (L : List Nat) (w : BeginWorld) (f : Bool) :
    (L.foldl BeginWorld.scanStep (w, f)).1.mgr.busClock = w.mgr.busClock :=
  (BeginWorld.scanFold L w f).2.2.1

@[simp] theorem scanFold_clockSpeed (L : List Nat) (w : BeginWorld) (f : Bool) :
    (L.foldl BeginWorld.scanStep (w, f)).1.mgr._clockSpeed = w.mgr._clockSpeed :=
  (BeginWorld.scanFold L w f).2.2.2.1

@[simp] theorem scanFold_clockSpeedFixed (L : List Nat) (w : BeginWorld) (f : Bool) :
    (L.foldl BeginWorld.scanStep (w, f)).1.mgr._clockSpeedFixed = w.mgr._clockSpeedFixed :=
  (BeginWorld.scanFold L w f).2.2.2.2.1

@[simp] theorem scanFold_beginCompleted (L : List Nat) (w : BeginWorld) (f : Bool) :
    (L.foldl BeginWorld.scanStep (w, f)).1.mgr._beginCompleted = w.mgr._beginCompleted :=
  (BeginWorld.scanFold L w f).2.2.2.2.2.1

@[simp] theorem scanFold_initCount (L : List Nat) (w : BeginWorld) (f : Bool) :
    (L.foldl BeginWorld.scanStep (w, f)).1.initCount = w.initCount :=
  (BeginWorld.scanFold L w f).2.2.2.2.2.2

set_option maxRecDepth 16384 in
theorem begin_not_completed_spec (w : BeginWorld) (h : w.mgr._beginCompleted = false) :
    w.begin.probes = w.probes ++ (List.range' 1 126).map
        (fun a => { addr := a, timeoutAtProbe := 1000, clockAtProbe := 100000,
                    noRetry := true })
    ∧ w.begin.mgr.timeout = w.mgr.timeout
    ∧ w.begin.mgr._clockSpeed = w.mgr._clockSpeed
    ∧ w.begin.mgr._clockSpeedFixed = w.mgr._clockSpeedFixed
    ∧ w.begin.mgr._beginCompleted = true
    ∧ w.begin.initCount = w.initCount + 1 := by
  simp only [BeginWorld.begin, h, Bool.false_eq_true, if_false,
    BeginWorld._initialise, I2CManagerClass.setTimeout, I2CManagerClass._setClock]
  refine ⟨?_, ?_, ?_, ?_, ?_, ?_⟩ <;>
    simp only [scanFold_probes, scanFold_timeout, scanFold_busClock, scanFold_clockSpeed,
      scanFold_clockSpeedFixed, scanFold_beginCompleted, scanFold_initCount,
      BeginWorld.ite_addDiag_probes, BeginWorld.ite_addDiag_mgr_timeout,
      BeginWorld.ite_addDiag_mgr_busClock, BeginWorld.ite_addDiag_mgr_clockSpeed,
      BeginWorld.ite_addDiag_mgr_clockSpeedFixed, BeginWorld.ite_addDiag_mgr_beginCompleted,
      BeginWorld.ite_addDiag_initCount]

/-- C3: `begin` is idempotent one-time initialization: a second `begin`
leaves the whole world (manager state, diagnostics, probe trace, backend
bring-up count) unchanged, the completion flag is set after any `begin`,
and the backend bring-up and the 126-address scan run exactly once, on the
first call only. -/
theorem begin_idempotent_one_time (w : BeginWorld) :
    w.begin.begin = w.begin
    ∧ w.begin.mgr._beginCompleted = true
    ∧ w.begin.initCount
        = w.initCount + (if w.mgr._beginCompleted = true then 0 else 1)
    ∧ w.begin.probes.length
        = w.probes.length + (if w.mgr._beginCompleted = true then 0 else 126) := by
  have begin_of_completed : ∀ v : BeginWorld, v.mgr._beginCompleted = true → v.begin = v :=
    fun v hv => by simp [BeginWorld.begin, hv]
  by_cases h : w.mgr._beginCompleted = true
  · have e : w.begin = w := begin_of_completed w h
    refine ⟨by rw [e]; exact e, by rw [e]; exact h, by rw [e]; simp [h], by rw [e]; simp [h]⟩
  · have h' : w.mgr._beginCompleted = false := by
      cases hb : w.mgr._beginCompleted
      · rfl
      · exact absurd hb h
    obtain ⟨hp, _, _, _, hdone, hinit⟩ := begin_not_completed_spec w h'
    refine ⟨begin_of_completed w.begin hdone, hdone, ?_, ?_⟩
    · rw [hinit, h']; simp
    · rw [hp, h']
      simp [List.length_append, List.length_map]

/-- C4: during first-time initialization `begin` probes exactly the bus
addresses 1 to 126, in order, each with retries disabled, at the probe
clock rate 100000 and the short probe timeout 1000; afterwards the
manager's timeout and negotiated clock rate equal their pre-scan values. -/
theorem begin_scan_probes_and_restoration (w : BeginWorld)
    (h : w.mgr._beginCompleted = false) :
    w.begin.probes = w.probes ++ (List.range' 1 126).map
        (fun a => { addr := a, timeoutAtProbe := 1000, clockAtProbe := 100000,
                    noRetry := true })
    ∧ w.begin.mgr.timeout = w.mgr.timeout
    ∧ w.begin.mgr._clockSpeed = w.mgr._clockSpeed :=
  ⟨(begin_not_completed_spec w h).1, (begin_not_completed_spec w h).2.1,
    (begin_not_completed_spec w h).2.2.1⟩

/-- C4 witness: the scan frame property evaluated on a concrete fresh
world. -/
theorem begin_scan_witness :
    beginWitnessWorld.mgr._beginCompleted = false
    ∧ beginWitnessWorld.begin.mgr.timeout = beginWitnessWorld.mgr.timeout
    ∧ beginWitnessWorld.begin.mgr._clockSpeed = beginWitnessWorld.mgr._clockSpeed :=
  ⟨rfl, (begin_scan_probes_and_restoration beginWitnessWorld rfl).2.1,
    (begin_scan_probes_and_restoration beginWitnessWorld rfl).2.2⟩

/-! ### Scheduler lemmas (for C2, C7, C8) -/

namespace SchedWorld

theorem loop_loopCount (w : SchedWorld) : (w.loop).loopCount = w.loopCount + 1 := by
  unfold SchedWorld.loop
  dsimp only
  split
  · split <;> rfl
  · rfl

theorem loop_submissions (w : SchedWorld) : (w.loop).submissions = w.submissions := by
  unfold SchedWorld.loop
  dsimp only
  split
  · split <;> rfl
  · rfl

theorem loop_completionStatus (w : SchedWorld) :
    (w.loop).completionStatus = w.completionStatus := by
  unfold SchedWorld.loop
  dsimp only
  split
  · split <;> rfl
  · rfl

theorem queueRequest_submissions (w : SchedWorld) (blk : I2CRB) :
    (w.queueRequest blk).submissions = w.submissions ++ [blk] := by
  unfold SchedWorld.queueRequest
  dsimp only
  split <;> rfl

theorem queueRequest_loopCount (w : SchedWorld) (blk : I2CRB) :
    (w.queueRequest blk).loopCount = w.loopCount := by
  unfold SchedWorld.queueRequest
  dsimp only
  split <;> rfl

theorem queueRequest_stepsToComplete (w : SchedWorld) (blk : I2CRB) :
    (w.queueRequest blk).stepsToComplete = w.stepsToComplete := by
  unfold SchedWorld.queueRequest
  dsimp only
  split <;> rfl

theorem queueRequest_completionStatus (w : SchedWorld) (blk : I2CRB) :
    (w.queueRequest blk).completionStatus = w.completionStatus := by
  unfold SchedWorld.queueRequest
  dsimp only
  split <;> rfl

theorem queueRequest_rb_status (w : SchedWorld) (blk : I2CRB) :
    (w.queueRequest blk).rb.status
      = if (w.queueFull || !validOperation blk) = true then w.rejectStatus
        else I2C_STATUS_PENDING := by
  unfold SchedWorld.queueRequest
  dsimp only
  split <;> rfl

theorem waitAux_of_not_pending (n : Nat) (w : SchedWorld)
    (h : ¬ w.rb.status = I2C_STATUS_PENDING) : waitAux n w = w := by
  cases n with
  | zero => rfl
  | succ n => unfold SchedWorld.waitAux; rw [if_neg h]

theorem waitAux_submissions (n : Nat) :
    ∀ w : SchedWorld, (waitAux n w).submissions = w.submissions := by
  induction n with
  | zero => intro w; rfl
  | succ n ih =>
    intro w
    unfold SchedWorld.waitAux
    split
    · rw [ih, loop_submissions]
    · rfl

theorem waitAux_completes (n : Nat) :
    ∀ w : SchedWorld, w.rb.status = I2C_STATUS_PENDING →
      w.completionStatus ≠ I2C_STATUS_PENDING → w.stepsToComplete < n →
      (waitAux n w).rb.status = w.completionStatus := by
  induction n with
  | zero => intro w _ _ hs; exact absurd hs (Nat.not_lt_zero _)
  | succ n ih =>
    intro w hp hc hs
    unfold SchedWorld.waitAux
    rw [if_pos hp]
    by_cases h0 : w.stepsToComplete = 0
    · have h1 : (w.loop).rb.status = w.completionStatus := by
        unfold SchedWorld.loop
        dsimp only
        rw [if_pos hp, if_pos h0]
      rw [waitAux_of_not_pending n (w.loop) (by rw [h1]; exact hc), h1]
    · have h1 : (w.loop).rb.status = I2C_STATUS_PENDING := by
        unfold SchedWorld.loop
        dsimp only
        rw [if_pos hp, if_neg h0]
        exact hp
      have h2 : (w.loop).stepsToComplete = w.stepsToComplete - 1 := by
        unfold SchedWorld.loop
        dsimp only
        rw [if_pos hp, if_neg h0]
      have h3 : (w.loop).stepsToComplete < n := by
        rw [h2]; omega
      rw [ih (w.loop) h1 (by rw [loop_completionStatus]; exact hc) h3,
        loop_completionStatus]

theorem wait_snd_eq (w : SchedWorld) : (w.wait).2 = (w.wait).1.rb.status := rfl

theorem wait_terminal (w : SchedWorld)
    (hc : w.completionStatus ≠ I2C_STATUS_PENDING) :
    (w.wait).2 = (if w.rb.status = I2C_STATUS_PENDING then w.completionStatus
                  else w.rb.status) := by
  unfold SchedWorld.wait
  dsimp only
  by_cases hp : w.rb.status = I2C_STATUS_PENDING
  · rw [if_pos hp]
    exact waitAux_completes (w.stepsToComplete + 1) w hp hc (Nat.lt_succ_self _)
  · rw [if_neg hp, waitAux_of_not_pending _ w hp]

theorem wait_submissions (w : SchedWorld) : (w.wait).1.submissions = w.submissions :=
  waitAux_submissions _ w

end SchedWorld

/-! ### Non-blocking poll (C2) -/

/-- C2 counterexample: on a block whose status is terminal (OK), `isBusy`
performs no scheduler advancement step at all, and on a PENDING block whose
backend resolution arrives during the one step `isBusy` runs, `isBusy`
returns true although the status after the step is no longer PENDING. -/
theorem isBusy_claim_cex :
    (idleWorld.isBusy).1.loopCount = idleWorld.loopCount
    ∧ (aboutToCompleteWorld.isBusy).2 = true
    ∧ (aboutToCompleteWorld.isBusy).1.rb.status ≠ I2C_STATUS_PENDING := by
  decide

/-- C2 amended: `isBusy` returns true exactly when the block's status is
PENDING at the time of the call; in that case it performs exactly one
scheduler advancement step before returning, and otherwise it performs no
step and leaves the world unchanged. -/
theorem isBusy_poll (w : SchedWorld) :
    (w.isBusy).2 = decide (w.rb.status = I2C_STATUS_PENDING)
    ∧ (w.isBusy).1.loopCount
        = w.loopCount + (if w.rb.status = I2C_STATUS_PENDING then 1 else 0)
    ∧ ((w.isBusy).2 = false → (w.isBusy).1 = w) := by
  by_cases h : w.rb.status = I2C_STATUS_PENDING
  · have e : w.isBusy = (w.loop, true) := by
      unfold SchedWorld.isBusy; rw [if_pos h]
    rw [e]
    refine ⟨by simp [h], ?_, by intro hf; simp at hf⟩
    show (w.loop).loopCount = w.loopCount + (if w.rb.status = I2C_STATUS_PENDING then 1 else 0)
    rw [SchedWorld.loop_loopCount, if_pos h]
  · have e : w.isBusy = (w, false) := by
      unfold SchedWorld.isBusy; rw [if_neg h]
    rw [e]
    exact ⟨by simp [h], by simp [h], fun _ => rfl⟩

/-- C2 amended witness: the no-step branch evaluated on a concrete idle
world. -/
theorem isBusy_poll_witness :
    (idleWorld.isBusy).2 = false ∧ (idleWorld.isBusy).1 = idleWorld :=
  ⟨by decide, (isBusy_poll idleWorld).2.2 (by decide)⟩

/-! ### Address probe (C7) -/

/-- C7: `checkAddress` submits through `queueRequest` a block prepared as a
zero-length write (SEND operation, write length 0, NULL write buffer) to
the given address with the NO-RETRY modifier set, and returns the terminal
(non-PENDING) status that waiting on that block produces. -/
theorem checkAddress_probe (w : SchedWorld) (address : Nat)
    (h3 : w.completionStatus ≠ I2C_STATUS_PENDING) :
    (∃ blk : I2CRB,
      (w.checkAddress address).1.submissions = w.submissions ++ [blk]
      ∧ blk.operation = OPERATION_SEND ||| OPERATION_NORETRY
      ∧ blk.writeLen = 0
      ∧ blk.writeBuffer = none
      ∧ blk.i2cAddress = address
      ∧ blk.status = I2C_STATUS_OK)
    ∧ (w.checkAddress address).2 = (w.checkAddress address).1.rb.status
    ∧ (w.checkAddress address).2 ≠ I2C_STATUS_PENDING := by
  have hca : w.checkAddress address
      = (w.queueRequest ((initRB.setWriteParams address none 0).suppressRetries true)).wait :=
    rfl
  have hW : (w.queueRequest
        ((initRB.setWriteParams address none 0).suppressRetries true)).completionStatus
      = w.completionStatus :=
    SchedWorld.queueRequest_completionStatus w _
  refine ⟨⟨(initRB.setWriteParams address none 0).suppressRetries true,
    ?_, rfl, rfl, rfl, rfl, rfl⟩, ?_, ?_⟩
  · rw [hca, SchedWorld.wait_submissions, SchedWorld.queueRequest_submissions]
  · rw [hca]
    exact SchedWorld.wait_snd_eq _
  · rw [hca, SchedWorld.wait_terminal _ (by rw [hW]; exact h3)]
    split
    · rw [hW]; exact h3
    · next hnp => exact hnp

/-- C7 witness: the probe evaluated on a concrete world whose backend NAKs
after three scheduler steps. -/
theorem checkAddress_probe_witness :
    nakWorld.completionStatus ≠ I2C_STATUS_PENDING
    ∧ (nakWorld.checkAddress 80).2 ≠ I2C_STATUS_PENDING :=
  ⟨by decide, (checkAddress_probe nakWorld 80 (by decide)).2.2⟩

/-! ### Blocking convenience layer (C8) -/

theorem submitBlocking_spec (w : SchedWorld) (blk : I2CRB)
    (hv : SchedWorld.validOperation blk = true)
    (h1 : w.rejectStatus ≠ I2C_STATUS_OK)
    (h2 : w.rejectStatus ≠ I2C_STATUS_PENDING)
    (h3 : w.completionStatus ≠ I2C_STATUS_PENDING) :
    (w.queueFull = true →
      (w.submitBlocking blk).2 = w.rejectStatus
      ∧ (w.submitBlocking blk).1.rb.status = w.rejectStatus
      ∧ (w.submitBlocking blk).1.loopCount = w.loopCount)
    ∧ (w.queueFull = false →
      ((w.queueRequest blk).rb.status = I2C_STATUS_PENDING
      ∧ (w.submitBlocking blk).2 = (w.submitBlocking blk).1.rb.status
      ∧ (w.submitBlocking blk).2 ≠ I2C_STATUS_PENDING)) := by
  constructor
  · intro hq
    have hrb : (w.queueRequest blk).rb.status = w.rejectStatus := by
      rw [SchedWorld.queueRequest_rb_status]
      simp [hq]
    have hnp : ¬((w.queueRequest blk).rb.status = I2C_STATUS_PENDING) := by
      rw [hrb]; exact h2
    have e : w.submitBlocking blk = ((w.queueRequest blk), w.rejectStatus) := by
      unfold SchedWorld.submitBlocking SchedWorld.finishRB
      dsimp only
      rw [if_neg hnp, hrb, if_neg]
      intro hcon
      exact h1 hcon.1
    rw [e]
    exact ⟨rfl, hrb, SchedWorld.queueRequest_loopCount w blk⟩
  · intro hq
    have hrb : (w.queueRequest blk).rb.status = I2C_STATUS_PENDING := by
      rw [SchedWorld.queueRequest_rb_status]
      simp [hq, hv]
    have e : w.submitBlocking blk = (w.queueRequest blk).wait := by
      unfold SchedWorld.submitBlocking SchedWorld.finishRB
      dsimp only
      rw [if_pos hrb, if_pos ⟨rfl, rfl⟩]
    refine ⟨hrb, ?_, ?_⟩
    · rw [e]; exact SchedWorld.wait_snd_eq _
    · have hW : (w.queueRequest blk).completionStatus = w.completionStatus :=
        SchedWorld.queueRequest_completionStatus w blk
      rw [e, SchedWorld.wait_terminal _ (by rw [hW]; exact h3), if_pos hrb, hW]
      exact h3

/-- C8: every blocking convenience call (`write`, `write_P`, `read` and the
inline-byte-list overloads, which marshal their bytes and delegate to the
array forms) is the submit-then-finish pattern on a freshly prepared valid
block; when the queue is full the submission is rejected synchronously, the
returned status is the rejection error code, the block never enters PENDING
and no scheduler step runs; otherwise the block enters PENDING at
submission and the call returns the block's terminal (non-PENDING)
status. -/
theorem blocking_convenience_contract (w : SchedWorld) (a : Nat)
    (wb : Option (List Nat)) (wl : Nat) (rbuf : Option (List Nat)) (rl : Nat)
    (bytes : List Nat)
    (h1 : w.rejectStatus ≠ I2C_STATUS_OK)
    (h2 : w.rejectStatus ≠ I2C_STATUS_PENDING)
    (h3 : w.completionStatus ≠ I2C_STATUS_PENDING) :
    (w.write a wb wl = w.submitBlocking (initRB.setWriteParams a wb wl)
      ∧ w.write_P a wb wl = w.submitBlocking (initRB.setWriteParams a wb wl)
      ∧ w.read a rbuf rl wb wl
          = w.submitBlocking (initRB.setRequestParams a rbuf rl wb wl)
      ∧ w.writeVar a bytes = w.write a (some bytes) bytes.length
      ∧ w.readVar a rbuf rl bytes = w.read a rbuf rl (some bytes) bytes.length
      ∧ SchedWorld.validOperation (initRB.setWriteParams a wb wl) = true
      ∧ SchedWorld.validOperation (initRB.setRequestParams a rbuf rl wb wl) = true)
    ∧ (∀ blk : I2CRB, SchedWorld.validOperation blk = true →
        (w.queueFull = true →
          (w.submitBlocking blk).2 = w.rejectStatus
          ∧ (w.submitBlocking blk).1.rb.status = w.rejectStatus
          ∧ (w.submitBlocking blk).1.loopCount = w.loopCount)
        ∧ (w.queueFull = false →
          ((w.queueRequest blk).rb.status = I2C_STATUS_PENDING
          ∧ (w.submitBlocking blk).2 = (w.submitBlocking blk).1.rb.status
          ∧ (w.submitBlocking blk).2 ≠ I2C_STATUS_PENDING))) :=
  by
  refine ⟨⟨rfl, rfl, rfl, rfl, rfl, ?_, ?_⟩,
    fun blk hv => submitBlocking_spec w blk hv h1 h2 h3⟩
  · unfold SchedWorld.validOperation
    dsimp only [I2CRB.setWriteParams]
    decide
  · unfold SchedWorld.validOperation
    dsimp only [I2CRB.setRequestParams]
    decide

/-- C8 witness: the accepted path on a free-queue world whose backend NAKs,
and the rejected path on the same world with a full queue. -/
theorem blocking_convenience_contract_witness :
    nakWorld.queueFull = false
    ∧ (nakWorld.submitBlocking (initRB.setWriteParams 32 (some [1, 2, 3]) 3)).2
        ≠ I2C_STATUS_PENDING
    ∧ fullQueueWorld.queueFull = true
    ∧ (fullQueueWorld.submitBlocking (initRB.setWriteParams 32 (some [1, 2, 3]) 3)).2
        = fullQueueWorld.rejectStatus :=
  ⟨rfl,
    (((blocking_convenience_contract nakWorld 32 (some [1, 2, 3]) 3 none 0 []
        (by decide) (by decide) (by decide)).2
      (initRB.setWriteParams 32 (some [1, 2, 3]) 3) (by decide)).2 rfl).2.2,
    rfl,
    (((blocking_convenience_contract fullQueueWorld 32 (some [1, 2, 3]) 3 none 0 []
        (by decide) (by decide) (by decide)).2
      (initRB.setWriteParams 32 (some [1, 2, 3]) 3) (by decide)).1 rfl).1⟩
